import Mathlib

/-!
Verification development for the `Default3DPipeLine` render pipeline of the
webgpu-engine repository (src/src/pipelines/default_3d_pipeline.ts).

Scalars that the TypeScript code stores in `Float32Array`s are modelled as
rationals (`ℚ`): the pipeline never performs arithmetic on them, it only
moves them around, so an exact numeric carrier is faithful.  GPU handles
(buffers, texture views, mesh buffers) are modelled as natural-number ids.
The GPU command stream recorded by one `render()` call is modelled as a
trace of `RenderEvent`s in program order; `await` suspension points appear
in the trace as events so that temporal claims can be stated.
-/

namespace WebgpuEngine

/-- A gl-matrix `vec4` (four floats). -/
structure Vec4 where
  x : ℚ
  y : ℚ
  z : ℚ
  w : ℚ
deriving DecidableEq, Repr

def Vec4.toFloats (v : Vec4) : List ℚ := [v.x, v.y, v.z, v.w]

/-- A three-component vector (three floats). -/
structure Vec3 where
  x : ℚ
  y : ℚ
  z : ℚ
deriving DecidableEq, Repr

def Vec3.toFloats (v : Vec3) : List ℚ := [v.x, v.y, v.z]

/-- A gl-matrix `mat4`: a fixed array of 16 floats.  Spreading it
(`[...m]` in the TypeScript) yields its 16 entries in order. -/
structure Mat4 where
  m0 : ℚ
  m1 : ℚ
  m2 : ℚ
  m3 : ℚ
  m4 : ℚ
  m5 : ℚ
  m6 : ℚ
  m7 : ℚ
  m8 : ℚ
  m9 : ℚ
  m10 : ℚ
  m11 : ℚ
  m12 : ℚ
  m13 : ℚ
  m14 : ℚ
  m15 : ℚ
deriving DecidableEq, Repr

def Mat4.toFloats (m : Mat4) : List ℚ :=
  [m.m0, m.m1, m.m2, m.m3, m.m4, m.m5, m.m6, m.m7,
   m.m8, m.m9, m.m10, m.m11, m.m12, m.m13, m.m14, m.m15]

/-- Modelled from the spec: the scene's light class is not under src/ (only
the uniform layout that receives it is).  Per §3 of the spec each packed
light record is "position (4 floats, 4th channel reserved/unused), color
(4 floats, 4th channel carries intensity)", and the source comments on
`Default3DLightUniformData` say the same; the code packs
`[...light.position, 0.0, ...light.color]`, so the light itself carries
three spatial position floats (the reserved 4th channel is the literal 0.0)
and a four-float color whose 4th channel is the intensity. -/
structure Light where
  position : Vec3
  color : Vec4
deriving DecidableEq, Repr

/-- Modelled from the spec: the camera (out of scope, §6) exposes
`get_view_matrix()` and `get_projection_matrix()`, each a 4×4 matrix of
16 floats. -/
structure Camera where
  view_matrix : Mat4
  projection_matrix : Mat4
deriving DecidableEq, Repr

/-- Modelled from the spec: the mesh-data accessor of a scene object
(§6) resolves asynchronously to GPU-resident vertex and index buffers and
an index count (`get_model_data()` in the source). -/
structure ModelData where
  vertex_data_gpu : ℕ
  indices_gpu : ℕ
  index_count : ℕ
deriving DecidableEq, Repr

/-- Modelled from the spec: a scene object (§6) carries a routing key, a
model-matrix accessor, texture-presence predicates, texture identifiers
handed to the texture resolver, and a mesh-data accessor. -/
structure SceneObject where
  pipeline_key : String
  model_matrix : Mat4
  has_texture_diffuse : Bool
  has_texture_specular : Bool
  has_texture_normal : Bool
  texture_diffuse : String
  texture_specular : String
  texture_normal : String
  model_data : ModelData
deriving DecidableEq, Repr

/-- Modelled from the spec: the scene context (§6) exposes the object
collection, camera, light list, the color/depth target views (which may be
unavailable), and the texture resolver `load_texture` (modelled as a total
map from texture identifiers to resolved texture handles). -/
structure Scene where
  objects : List SceneObject
  lights : List Light
  camera : Camera
  texture_view : Option ℕ
  depth_texture_view : Option ℕ
  texture_manager : String → ℕ

/-- A device buffer as owned by the pipeline: its handle id, its size in
bytes (`GPUBuffer.size`), and its committed float contents. -/
structure GPUBuffer where
  id : ℕ
  size : ℕ
  data : List ℚ
deriving DecidableEq, Repr

/-- Splice semantics of `device.queue.writeBuffer(handle, offset, data)`
on the float contents: the written range is replaced, everything outside
it is untouched.  (Device-side capacity validation is the GPU API's
concern, out of scope per §1 of the spec.)  Offsets are in floats here;
the pipeline only ever writes at offset 0. -/
def writeFloats (old : List ℚ) (offset : ℕ) (new : List ℚ) : List ℚ :=
  old.take offset ++ new ++ old.drop (offset + new.length)

/-- One entry of the per-frame command/suspension trace of `render()`,
in program order. -/
inductive RenderEvent where
  /-- `command_encoder.beginRenderPass` with the color and depth views. -/
  | beginRenderPass (color_view : ℕ) (depth_view : ℕ)
  /-- `render_pass.setPipeline`. -/
  | setPipeline
  /-- an `await texture_manager.load_texture(id)` suspension resolving to
  a texture handle. -/
  | awaitTexture (id : String) (result : ℕ)
  /-- `buffer.destroy()` on the buffer with this handle id. -/
  | bufferDestroy (buf : ℕ)
  /-- `create_gpu_buffer(data, usage)`: allocation sized to the data, with
  the data uploaded at creation. -/
  | bufferCreate (buf : ℕ) (sizeBytes : ℕ) (data : List ℚ)
  /-- `device.queue.writeBuffer(buf, offset, data)` (offset in floats). -/
  | bufferWrite (buf : ℕ) (offset : ℕ) (data : List ℚ)
  /-- `device.createBindGroup` (lines 252-293): the uniform buffer
  binding, the fresh sampler, the three texture views, and the transform
  buffer binding. -/
  | createBindGroup (uniformBuf : ℕ) (uniformSize : ℕ)
      (texDiffuse : ℕ) (texSpecular : ℕ) (texNormal : ℕ)
      (transformBuf : ℕ) (transformSize : ℕ)
  /-- `render_pass.setBindGroup(0, ...)`. -/
  | setBindGroup
  /-- the `await object_0.get_model_data()` suspension. -/
  | awaitModelData (obj_key : String)
  /-- `render_pass.setVertexBuffer(0, ...)`. -/
  | setVertexBuffer (buf : ℕ)
  /-- `render_pass.setIndexBuffer(..., "uint32")`. -/
  | setIndexBuffer (buf : ℕ)
  /-- `render_pass.drawIndexed(indexCount, instanceCount, firstIndex,
  baseVertex, firstInstance)`. -/
  | drawIndexed (indexCount : ℕ) (instanceCount : ℕ)
      (firstIndex : ℕ) (baseVertex : ℕ) (firstInstance : ℕ)
  /-- `render_pass.end()`. -/
  | endPass
deriving DecidableEq, Repr

/-- Is this event a texture-resolution suspension point? -/
def RenderEvent.isAwaitTexture : RenderEvent → Bool
  | .awaitTexture _ _ => true
  | _ => false

/-- Is this event a render-pass begin? -/
def RenderEvent.isBeginPass : RenderEvent → Bool
  | .beginRenderPass _ _ => true
  | _ => false

/-- Is this event a buffer allocation? -/
def RenderEvent.isBufferCreate : RenderEvent → Bool
  | .bufferCreate _ _ _ => true
  | _ => false

/-- Is this event a buffer destruction? -/
def RenderEvent.isBufferDestroy : RenderEvent → Bool
  | .bufferDestroy _ => true
  | _ => false

/-- Is this event a queued buffer write? -/
def RenderEvent.isBufferWrite : RenderEvent → Bool
  | .bufferWrite _ _ _ => true
  | _ => false

/-- Does this event upload the given float sequence into a buffer, either
at buffer creation or by a write at offset 0? -/
def RenderEvent.uploadsData (data : List ℚ) : RenderEvent → Bool
  | .bufferCreate _ _ d => d == data
  | .bufferWrite _ 0 d => d == data
  | _ => false

namespace Default3DPipeLine

/-- `DEFAULT_3D_UNIFORM_DATA_SIZE_FLOAT = 4 + 4 * 4 + 4 * 4 + 10 * 4 * 2`
(line 7 of the source). -/
def DEFAULT_3D_UNIFORM_DATA_SIZE_FLOAT : ℕ := 4 + 4 * 4 + 4 * 4 + 10 * 4 * 2

/-- `static get_pipeline_label(): string` (lines 80-82). -/
def get_pipeline_label : String := "default_3d"

/-- Modelled from the spec: `get_pipeline_key` lives on the `PipeLine`
base class, which is not under src/.  Per §4.3 it is "a static, pure
function mapping a shader identifier to a `PipelineKey` (pure string
transform, no device access)"; it is modelled as a deterministic string
transform of the shader identifier (no device or scene argument). -/
def get_pipeline_key (shader_path : String) : String :=
  get_pipeline_label ++ ":" ++ shader_path

/-- The mutable state owned by one pipeline instance: its immutable
shader identifier, the two owned buffers (`model_transforms` starts
undefined; `uniform_buffer` is allocated by `construct_pipeline` before
the instance is returned), and a fresh-handle counter standing for the
device's allocation of new buffer ids. -/
structure PipelineState where
  shader_path : String
  model_transforms : Option GPUBuffer
  uniform_buffer : GPUBuffer
  next_buffer_id : ℕ
deriving DecidableEq, Repr

/-- `static async construct_pipeline(shader_path, scene)` (lines 85-157):
shader compilation and pipeline-state creation are device work out of
scope; the state-relevant effect is that the returned instance stores the
shader path, has no transform buffer yet, and owns a zero-initialized
uniform buffer of `DEFAULT_3D_UNIFORM_DATA_SIZE_FLOAT` floats
(`new Float32Array(n)` is n zeros; `create_gpu_buffer` sizes the buffer
to the data — spec §4.2).  `first_buffer_id` stands for the next free
device handle. -/
def construct_pipeline (shader_path : String) (_scene : Scene)
    (first_buffer_id : ℕ) : PipelineState :=
  { shader_path := shader_path
    model_transforms := none
    uniform_buffer :=
      { id := first_buffer_id
        size := 4 * DEFAULT_3D_UNIFORM_DATA_SIZE_FLOAT
        data := List.replicate DEFAULT_3D_UNIFORM_DATA_SIZE_FLOAT 0 }
    next_buffer_id := first_buffer_id + 1 }

/-- The pipeline key of a constructed instance (derived from the stored
shader identifier, as at line 163). -/
def PipelineState.key (st : PipelineState) : String :=
  get_pipeline_key st.shader_path

/-- The object selection of lines 168-170:
`scene.objects.filter(object => object.pipeline_key === pipeline_key)`
with `pipeline_key = get_pipeline_key(this.shader_path)` (line 163). -/
def relevantObjects (st : PipelineState) (scene : Scene) : List SceneObject :=
  scene.objects.filter
    (fun object => object.pipeline_key == get_pipeline_key st.shader_path)

/-- The per-light contribution `[...light.position, 0.0, ...light.color]`
of line 245. -/
def light_record (light : Light) : List ℚ :=
  light.position.toFloats ++ [0] ++ light.color.toFloats

/-- The uniform packing of lines 237-248: header scalars, view matrix,
projection matrix, then `scene.lights.reduce((acc, light) =>
acc.concat([...light.position, 0.0, ...light.color]), [])`. -/
def pack_uniform_data (has_texture_diffuse has_texture_specular
    has_texture_normal : ℚ) (scene : Scene) : List ℚ :=
  [has_texture_diffuse, has_texture_specular, has_texture_normal,
    (scene.lights.length : ℚ)]
  ++ scene.camera.view_matrix.toFloats
  ++ scene.camera.projection_matrix.toFloats
  ++ scene.lights.foldl (fun acc light => acc ++ light_record light) []

/-- The transform packing of lines 217-219:
`new Float32Array(relevant_scene_objects.flatMap(obj => [...obj.get_model_matrix()]))`. -/
def pack_model_transforms (objects : List SceneObject) : List ℚ :=
  (objects.map (fun obj => obj.model_matrix.toFloats)).flatten

/-- The grow-or-write step of lines 221-234: if
`needed_model_transform_size > (this.model_transforms?.size ?? 0)` the old
buffer (if any) is destroyed and a new one is allocated sized to the
packed data with the data uploaded at creation (`create_gpu_buffer`, spec
§4.2); otherwise the packed data is written into the existing buffer at
offset 0 through the `this.model_transforms!` non-null assertion.
Returns the updated state, the transform buffer the bind group will
reference, and the commands issued by this step. -/
def grow_or_write (st : PipelineState) (relevant_scene_objects : List SceneObject) :
    Except String (PipelineState × GPUBuffer × List RenderEvent) :=
  let model_transforms := pack_model_transforms relevant_scene_objects
  let needed_model_transform_size := relevant_scene_objects.length * 16 * 4
  let current_model_transforms_size :=
    (st.model_transforms.map (fun b => b.size)).getD 0
  if needed_model_transform_size > current_model_transforms_size then
    let destroy_events := match st.model_transforms with
      | some old => [RenderEvent.bufferDestroy old.id]
      | none => []
    let new_buffer : GPUBuffer :=
      { id := st.next_buffer_id
        size := 4 * model_transforms.length
        data := model_transforms }
    .ok ({ st with model_transforms := some new_buffer
                   next_buffer_id := st.next_buffer_id + 1 },
         new_buffer,
         destroy_events ++ [RenderEvent.bufferCreate new_buffer.id new_buffer.size
                              model_transforms])
  else
    match st.model_transforms with
    | none => .error "this.model_transforms! is undefined"
    | some buffer =>
      let buffer := { buffer with data := writeFloats buffer.data 0 model_transforms }
      .ok ({ st with model_transforms := some buffer },
           buffer,
           [RenderEvent.bufferWrite buffer.id 0 model_transforms])

/-- The non-skipped body of `render()` (lines 180-308), entered once the
selection is known non-empty and both target views are present:
begin pass and bind pipeline (lines 180-197), resolve presence flags and
textures from `object_0` (lines 202-214), pack and grow-or-write the
transforms (lines 217-234), pack and write the uniform frame
(lines 237-249), build and set the bind group (lines 252-293), fetch
`object_0`'s mesh data and issue one instanced indexed draw, end the
pass (lines 296-308). -/
def render_frame (st : PipelineState) (scene : Scene) (object_0 : SceneObject)
    (relevant_scene_objects : List SceneObject)
    (texture_view depth_texture_view : ℕ) :
    Except String (PipelineState × List RenderEvent) :=
  let pass_events := [RenderEvent.beginRenderPass texture_view depth_texture_view,
                      RenderEvent.setPipeline]
  let has_texture_diffuse : ℚ := if object_0.has_texture_diffuse then 1 else 0
  let has_texture_specular : ℚ := if object_0.has_texture_specular then 1 else 0
  let has_texture_normal : ℚ := if object_0.has_texture_normal then 1 else 0
  let texture_diffuse := scene.texture_manager object_0.texture_diffuse
  let texture_specular := scene.texture_manager object_0.texture_specular
  let texture_normal := scene.texture_manager object_0.texture_normal
  let texture_events := [RenderEvent.awaitTexture object_0.texture_diffuse texture_diffuse,
                         RenderEvent.awaitTexture object_0.texture_specular texture_specular,
                         RenderEvent.awaitTexture object_0.texture_normal texture_normal]
  match grow_or_write st relevant_scene_objects with
  | .error e => .error e
  | .ok (st, transform_buffer, transform_events) =>
    let uniform_data := pack_uniform_data has_texture_diffuse has_texture_specular
      has_texture_normal scene
    let uniform_buffer :=
      { st.uniform_buffer with data := writeFloats st.uniform_buffer.data 0 uniform_data }
    let st := { st with uniform_buffer := uniform_buffer }
    let uniform_events := [RenderEvent.bufferWrite uniform_buffer.id 0 uniform_data]
    let bind_events := [RenderEvent.createBindGroup uniform_buffer.id uniform_buffer.size
                          texture_diffuse texture_specular texture_normal
                          transform_buffer.id transform_buffer.size,
                        RenderEvent.setBindGroup]
    let model_data := object_0.model_data
    let draw_events := [RenderEvent.awaitModelData object_0.pipeline_key,
                        RenderEvent.setVertexBuffer model_data.vertex_data_gpu,
                        RenderEvent.setIndexBuffer model_data.indices_gpu,
                        RenderEvent.drawIndexed model_data.index_count
                          relevant_scene_objects.length 0 0 0,
                        RenderEvent.endPass]
    .ok (st, pass_events ++ texture_events ++ transform_events ++ uniform_events
           ++ bind_events ++ draw_events)

/-- `async render(scene)` (lines 159-309): select the relevant objects,
skip the frame when the selection is empty or a render target is missing
(lines 172-178), otherwise run the frame body.  Returns the updated
pipeline state and the trace of commands and suspensions in program
order, or an error when a `!` non-null assertion stands on an absent
buffer (the write branch at line 233 dereferences
`this.model_transforms!`). -/
def render (st : PipelineState) (scene : Scene) :
    Except String (PipelineState × List RenderEvent) :=
  match relevantObjects st scene, scene.texture_view, scene.depth_texture_view with
  | object_0 :: rest, some texture_view, some depth_texture_view =>
    render_frame st scene object_0 (object_0 :: rest) texture_view depth_texture_view
  | _, _, _ => .ok (st, [])

/-- A sequence of `render()` calls on one pipeline instance, threading the
evolving state (the frame driver invokes `render` once per frame). -/
def renderSeq (st : PipelineState) : List Scene → Except String PipelineState
  | [] => .ok st
  | scene :: rest =>
    match render st scene with
    | .ok (st, _) => renderSeq st rest
    | .error e => .error e

/-- The transform buffer's current capacity in bytes:
`this.model_transforms?.size ?? 0` (line 222). -/
def capacity (st : PipelineState) : ℕ :=
  (st.model_transforms.map (fun b => b.size)).getD 0

/-! ### Names for the intermediate results of one frame

These definitions name the states, buffers and traces that `render`
produces; the characterization lemmas below prove that `render` equals
them, so each is justified against the source rather than assumed. -/

/-- The transform buffer allocated by the growth branch (lines 226-230):
a fresh handle, sized to the packed data, with the data uploaded. -/
def grown_buffer (st : PipelineState) (relevant : List SceneObject) : GPUBuffer :=
  { id := st.next_buffer_id
    size := 4 * (pack_model_transforms relevant).length
    data := pack_model_transforms relevant }

/-- The pipeline state after the growth branch replaced the transform
buffer. -/
def grown_state (st : PipelineState) (relevant : List SceneObject) : PipelineState :=
  { st with model_transforms := some (grown_buffer st relevant)
            next_buffer_id := st.next_buffer_id + 1 }

/-- The existing transform buffer after the write branch spliced the
packed data in at offset 0 (line 233): id and size unchanged, trailing
contents beyond the written range untouched. -/
def written_buffer (buffer : GPUBuffer) (relevant : List SceneObject) : GPUBuffer :=
  { buffer with data := writeFloats buffer.data 0 (pack_model_transforms relevant) }

/-- The pipeline state after the write branch. -/
def written_state (st : PipelineState) (buffer : GPUBuffer)
    (relevant : List SceneObject) : PipelineState :=
  { st with model_transforms := some (written_buffer buffer relevant) }

/-- The uniform float sequence render packs for a frame whose first
selected object is `object_0` (lines 237-248). -/
def uniform_of (object_0 : SceneObject) (scene : Scene) : List ℚ :=
  pack_uniform_data (if object_0.has_texture_diffuse then 1 else 0)
    (if object_0.has_texture_specular then 1 else 0)
    (if object_0.has_texture_normal then 1 else 0) scene

/-- The pipeline state after the unconditional uniform write of line 249. -/
def after_uniform_write (st : PipelineState) (uniform_data : List ℚ) : PipelineState :=
  { st with uniform_buffer :=
      { st.uniform_buffer with data := writeFloats st.uniform_buffer.data 0 uniform_data } }

/-- The full command/suspension trace of one non-skipped frame, given the
transform-step events `transform_events` and the transform buffer the
bind group references. -/
def frame_trace (scene : Scene) (object_0 : SceneObject)
    (relevant : List SceneObject) (tv dtv : ℕ) (uniform_id uniform_size : ℕ)
    (transform_buffer : GPUBuffer) (transform_events : List RenderEvent) :
    List RenderEvent :=
  [RenderEvent.beginRenderPass tv dtv,
   RenderEvent.setPipeline,
   RenderEvent.awaitTexture object_0.texture_diffuse
     (scene.texture_manager object_0.texture_diffuse),
   RenderEvent.awaitTexture object_0.texture_specular
     (scene.texture_manager object_0.texture_specular),
   RenderEvent.awaitTexture object_0.texture_normal
     (scene.texture_manager object_0.texture_normal)]
  ++ transform_events ++
  [RenderEvent.bufferWrite uniform_id 0 (uniform_of object_0 scene),
   RenderEvent.createBindGroup uniform_id uniform_size
     (scene.texture_manager object_0.texture_diffuse)
     (scene.texture_manager object_0.texture_specular)
     (scene.texture_manager object_0.texture_normal)
     transform_buffer.id transform_buffer.size,
   RenderEvent.setBindGroup,
   RenderEvent.awaitModelData object_0.pipeline_key,
   RenderEvent.setVertexBuffer object_0.model_data.vertex_data_gpu,
   RenderEvent.setIndexBuffer object_0.model_data.indices_gpu,
   RenderEvent.drawIndexed object_0.model_data.index_count relevant.length 0 0 0,
   RenderEvent.endPass]

/-- The destroy-then-create events of the growth branch (lines 226-230). -/
def grow_events (st : PipelineState) (relevant : List SceneObject) : List RenderEvent :=
  (match st.model_transforms with
    | some old => [RenderEvent.bufferDestroy old.id]
    | none => []) ++
  [RenderEvent.bufferCreate st.next_buffer_id
     (4 * (pack_model_transforms relevant).length)
     (pack_model_transforms relevant)]

/-- The lengths of the float sequences written into the buffer with the
given id at offset 0 during a trace (used to observe what `render`
actually wrote into the uniform buffer). -/
def uniform_write_lengths (uniform_id : ℕ) (trace : List RenderEvent) : List ℕ :=
  trace.filterMap (fun e => match e with
    | RenderEvent.bufferWrite b 0 data =>
      if b = uniform_id then some data.length else none
    | _ => none)

/-- The prefix of a trace recorded strictly before the first
texture-resolution suspension completes. -/
def events_before_texture_awaits (trace : List RenderEvent) : List RenderEvent :=
  trace.takeWhile (fun e => ! e.isAwaitTexture)

/-! ### Concrete sample inputs (used by witnesses and counterexamples) -/

def zero_matrix : Mat4 := ⟨0, 0, 0, 0, 0, 0, 0, 0, 0, 0, 0, 0, 0, 0, 0, 0⟩

def sample_matrix : Mat4 := ⟨1, 2, 3, 4, 5, 6, 7, 8, 9, 10, 11, 12, 13, 14, 15, 16⟩

def sample_camera : Camera := ⟨zero_matrix, zero_matrix⟩

def light_a : Light := ⟨⟨1, 2, 3⟩, ⟨4, 5, 6, 7⟩⟩

def light_b : Light := ⟨⟨8, 9, 10⟩, ⟨11, 12, 13, 14⟩⟩

/-- An object routed to the pipeline constructed from "shader.wgsl". -/
def obj_main : SceneObject :=
  { pipeline_key := get_pipeline_key "shader.wgsl"
    model_matrix := sample_matrix
    has_texture_diffuse := true
    has_texture_specular := false
    has_texture_normal := false
    texture_diffuse := "d.png"
    texture_specular := "s.png"
    texture_normal := "n.png"
    model_data := ⟨100, 101, 36⟩ }

/-- A second object with the same routing key but different textures and
mesh. -/
def obj_second : SceneObject :=
  { pipeline_key := get_pipeline_key "shader.wgsl"
    model_matrix := zero_matrix
    has_texture_diffuse := false
    has_texture_specular := true
    has_texture_normal := true
    texture_diffuse := "d2.png"
    texture_specular := "s2.png"
    texture_normal := "n2.png"
    model_data := ⟨200, 201, 12⟩ }

/-- An object routed to a different pipeline key. -/
def obj_other : SceneObject :=
  { pipeline_key := get_pipeline_key "other.wgsl"
    model_matrix := sample_matrix
    has_texture_diffuse := true
    has_texture_specular := true
    has_texture_normal := true
    texture_diffuse := "x.png"
    texture_specular := "y.png"
    texture_normal := "z.png"
    model_data := ⟨300, 301, 9⟩ }

/-- One matching object, no lights, both render targets present. -/
def scene_simple : Scene :=
  { objects := [obj_main]
    lights := []
    camera := sample_camera
    texture_view := some 1
    depth_texture_view := some 2
    texture_manager := fun _ => 7 }

/-- Three objects split across two routing keys, two lights, both render
targets present; the texture resolver maps each identifier to its length
so distinct identifiers resolve to distinct handles. -/
def scene_mixed : Scene :=
  { objects := [obj_main, obj_other, obj_second]
    lights := [light_a, light_b]
    camera := sample_camera
    texture_view := some 1
    depth_texture_view := some 2
    texture_manager := fun s => s.length }

/-- No object routed to the "shader.wgsl" pipeline. -/
def scene_unmatched : Scene :=
  { objects := [obj_other]
    lights := [light_a]
    camera := sample_camera
    texture_view := some 1
    depth_texture_view := some 2
    texture_manager := fun _ => 7 }

/-- One matching object and eleven active lights: more than the ten
fixed uniform slots. -/
def scene_many_lights : Scene :=
  { objects := [obj_main]
    lights := List.replicate 11 light_a
    camera := sample_camera
    texture_view := some 1
    depth_texture_view := some 2
    texture_manager := fun _ => 7 }

/-- A freshly constructed pipeline instance for "shader.wgsl". -/
def pipeline0 : PipelineState := construct_pipeline "shader.wgsl" scene_simple 10

/-- The pipeline state after one frame of `scene_simple` (its transform
buffer now holds one matrix, 64 bytes). -/
def pipeline1 : PipelineState :=
  ((render pipeline0 scene_simple).toOption.map Prod.fst).getD pipeline0

/-- The transform buffer owned by `pipeline1`. -/
def transform_buffer1 : GPUBuffer := ⟨11, 64, sample_matrix.toFloats⟩

/-- The pipeline state after the two-frame sequence
`[scene_simple, scene_simple]`. -/
def pipeline2 : PipelineState :=
  (renderSeq pipeline0 [scene_simple, scene_simple]).toOption.getD pipeline0

/-! ### Packing lemmas -/

theorem mat4_toFloats_length (m : Mat4) : m.toFloats.length = 16 := rfl

theorem light_record_length (light : Light) : (light_record light).length = 8 := rfl

theorem pack_model_transforms_nil : pack_model_transforms [] = [] := rfl

theorem pack_model_transforms_cons (o : SceneObject) (l : List SceneObject) :
    pack_model_transforms (o :: l) =
      o.model_matrix.toFloats ++ pack_model_transforms l := by
  simp [pack_model_transforms]

theorem pack_model_transforms_length (l : List SceneObject) :
    (pack_model_transforms l).length = 16 * l.length := by
  induction l with
  | nil => rfl
  | cons o l ih =>
    rw [pack_model_transforms_cons, List.length_append, mat4_toFloats_length, ih,
      List.length_cons]
    ring

theorem pack_model_transforms_block (l : List SceneObject) (i : ℕ) (h : i < l.length) :
    ((pack_model_transforms l).drop (16 * i)).take 16 =
      (l.get ⟨i, h⟩).model_matrix.toFloats := by
  induction l generalizing i with
  | nil => exact absurd h (Nat.not_lt_zero i)
  | cons o l ih =>
    cases i with
    | zero =>
      rw [pack_model_transforms_cons]
      simpa using List.take_left' (mat4_toFloats_length o.model_matrix)
    | succ i =>
      rw [pack_model_transforms_cons, show 16 * (i + 1) = 16 + 16 * i by ring,
        ← List.drop_drop, List.drop_left' (mat4_toFloats_length o.model_matrix)]
      exact ih i (Nat.lt_of_succ_lt_succ h)

theorem foldl_append_eq_flatten {α β : Type} (f : α → List β) (l : List α)
    (acc : List β) :
    l.foldl (fun a x => a ++ f x) acc = acc ++ (l.map f).flatten := by
  induction l generalizing acc with
  | nil => simp
  | cons x l ih => simp [ih]

theorem pack_uniform_data_eq (hd hs hn : ℚ) (scene : Scene) :
    pack_uniform_data hd hs hn scene =
      [hd, hs, hn, (scene.lights.length : ℚ)]
      ++ scene.camera.view_matrix.toFloats
      ++ scene.camera.projection_matrix.toFloats
      ++ (scene.lights.map light_record).flatten := by
  simp [pack_uniform_data, foldl_append_eq_flatten]

theorem lights_flatten_length (lights : List Light) :
    ((lights.map light_record).flatten).length = 8 * lights.length := by
  induction lights with
  | nil => rfl
  | cons x l ih =>
    rw [List.map_cons, List.flatten_cons, List.length_append, light_record_length, ih,
      List.length_cons]
    ring

theorem pack_uniform_data_length (hd hs hn : ℚ) (scene : Scene) :
    (pack_uniform_data hd hs hn scene).length = 36 + 8 * scene.lights.length := by
  rw [pack_uniform_data_eq]
  simp only [List.length_append, List.length_cons, List.length_nil,
    mat4_toFloats_length, lights_flatten_length]

theorem writeFloats_zero (old new : List ℚ) :
    writeFloats old 0 new = new ++ old.drop new.length := by
  simp [writeFloats]

/-! ### Characterizations of the render steps -/

theorem grow_or_write_grow (st : PipelineState) (relevant : List SceneObject)
    (h : relevant.length * 16 * 4 > capacity st) :
    grow_or_write st relevant =
      .ok ({ st with
               model_transforms := some
                 { id := st.next_buffer_id
                   size := 4 * (pack_model_transforms relevant).length
                   data := pack_model_transforms relevant }
               next_buffer_id := st.next_buffer_id + 1 },
           { id := st.next_buffer_id
             size := 4 * (pack_model_transforms relevant).length
             data := pack_model_transforms relevant },
           (match st.model_transforms with
             | some old => [RenderEvent.bufferDestroy old.id]
             | none => []) ++
           [RenderEvent.bufferCreate st.next_buffer_id
              (4 * (pack_model_transforms relevant).length)
              (pack_model_transforms relevant)]) := by
  simp only [grow_or_write]
  rw [if_pos (by simpa [capacity] using h)]

theorem grow_or_write_write (st : PipelineState) (relevant : List SceneObject)
    (buffer : GPUBuffer) (hb : st.model_transforms = some buffer)
    (h : ¬ relevant.length * 16 * 4 > capacity st) :
    grow_or_write st relevant =
      .ok ({ st with model_transforms := some { buffer with data := writeFloats buffer.data 0 (pack_model_transforms relevant) } },
           { buffer with data := writeFloats buffer.data 0 (pack_model_transforms relevant) },
           [RenderEvent.bufferWrite buffer.id 0 (pack_model_transforms relevant)]) := by
  simp only [grow_or_write]
  rw [if_neg (by simpa [capacity] using h), hb]

theorem render_skip (st : PipelineState) (scene : Scene)
    (h : relevantObjects st scene = [] ∨ scene.texture_view = none ∨
      scene.depth_texture_view = none) :
    render st scene = .ok (st, []) := by
  rcases h with h | h | h
  · rcases htv : scene.texture_view with _ | tv <;>
      rcases hdtv : scene.depth_texture_view with _ | dtv <;>
      simp [render, h, htv, hdtv]
  · rcases hrel : relevantObjects st scene with _ | ⟨o, r⟩ <;>
      rcases hdtv : scene.depth_texture_view with _ | dtv <;>
      simp [render, h, hrel, hdtv]
  · rcases hrel : relevantObjects st scene with _ | ⟨o, r⟩ <;>
      rcases htv : scene.texture_view with _ | tv <;>
      simp [render, h, hrel, htv]

theorem render_eq_frame (st : PipelineState) (scene : Scene) (object_0 : SceneObject)
    (rest : List SceneObject) (tv dtv : ℕ)
    (hrel : relevantObjects st scene = object_0 :: rest)
    (htv : scene.texture_view = some tv)
    (hdtv : scene.depth_texture_view = some dtv) :
    render st scene = render_frame st scene object_0 (object_0 :: rest) tv dtv := by
  simp [render, hrel, htv, hdtv]

theorem render_frame_eq (st : PipelineState) (scene : Scene) (object_0 : SceneObject)
    (relevant : List SceneObject) (tv dtv : ℕ) (st₁ : PipelineState)
    (transform_buffer : GPUBuffer) (transform_events : List RenderEvent)
    (hg : grow_or_write st relevant = .ok (st₁, transform_buffer, transform_events)) :
    render_frame st scene object_0 relevant tv dtv =
      .ok (after_uniform_write st₁ (uniform_of object_0 scene),
           frame_trace scene object_0 relevant tv dtv
             st₁.uniform_buffer.id st₁.uniform_buffer.size
             transform_buffer transform_events) := by
  simp only [render_frame, hg, after_uniform_write, uniform_of, frame_trace]
  simp [List.append_assoc]

/-- Case analysis on a successful `render` call: either the frame was
skipped (empty selection or a target view missing) and nothing happened,
or the selection and both views were available and the frame ran with the
transform buffer either grown or written in place. -/
theorem render_result_cases (st : PipelineState) (scene : Scene)
    (st_out : PipelineState) (trace : List RenderEvent)
    (h : render st scene = .ok (st_out, trace)) :
    (st_out = st ∧ trace = [] ∧
       (relevantObjects st scene = [] ∨ scene.texture_view = none ∨
        scene.depth_texture_view = none))
    ∨ (∃ object_0 rest tv dtv,
        relevantObjects st scene = object_0 :: rest ∧
        scene.texture_view = some tv ∧ scene.depth_texture_view = some dtv ∧
        (((object_0 :: rest).length * 16 * 4 > capacity st ∧
           st_out = after_uniform_write (grown_state st (object_0 :: rest))
             (uniform_of object_0 scene) ∧
           trace = frame_trace scene object_0 (object_0 :: rest) tv dtv
             st.uniform_buffer.id st.uniform_buffer.size
             (grown_buffer st (object_0 :: rest))
             (grow_events st (object_0 :: rest)))
         ∨ (∃ buffer, st.model_transforms = some buffer ∧
             ¬ (object_0 :: rest).length * 16 * 4 > capacity st ∧
             st_out = after_uniform_write (written_state st buffer (object_0 :: rest))
               (uniform_of object_0 scene) ∧
             trace = frame_trace scene object_0 (object_0 :: rest) tv dtv
               st.uniform_buffer.id st.uniform_buffer.size
               (written_buffer buffer (object_0 :: rest))
               [RenderEvent.bufferWrite buffer.id 0
                  (pack_model_transforms (object_0 :: rest))]))) := by
  rcases hrel : relevantObjects st scene with _ | ⟨object_0, rest⟩
  · rw [render_skip st scene (Or.inl hrel)] at h
    simp only [Except.ok.injEq, Prod.mk.injEq] at h
    exact Or.inl ⟨h.1.symm, h.2.symm, Or.inl rfl⟩
  · rcases htv : scene.texture_view with _ | tv
    · rw [render_skip st scene (Or.inr (Or.inl htv))] at h
      simp only [Except.ok.injEq, Prod.mk.injEq] at h
      exact Or.inl ⟨h.1.symm, h.2.symm, Or.inr (Or.inl rfl)⟩
    rcases hdtv : scene.depth_texture_view with _ | dtv
    · rw [render_skip st scene (Or.inr (Or.inr hdtv))] at h
      simp only [Except.ok.injEq, Prod.mk.injEq] at h
      exact Or.inl ⟨h.1.symm, h.2.symm, Or.inr (Or.inr rfl)⟩
    rw [render_eq_frame st scene object_0 rest tv dtv hrel htv hdtv] at h
    right
    refine ⟨object_0, rest, tv, dtv, rfl, rfl, rfl, ?_⟩
    by_cases hgt : (object_0 :: rest).length * 16 * 4 > capacity st
    · rw [render_frame_eq st scene object_0 (object_0 :: rest) tv dtv _ _ _
        (grow_or_write_grow st (object_0 :: rest) hgt)] at h
      simp only [Except.ok.injEq, Prod.mk.injEq] at h
      exact Or.inl ⟨hgt, h.1.symm, h.2.symm⟩
    · rcases hbuf : st.model_transforms with _ | buffer
      · exfalso
        apply hgt
        have hcap : capacity st = 0 := by simp [capacity, hbuf]
        rw [hcap]
        simp only [List.length_cons]
        omega
      · rw [render_frame_eq st scene object_0 (object_0 :: rest) tv dtv _ _ _
          (grow_or_write_write st (object_0 :: rest) buffer hbuf hgt)] at h
        simp only [Except.ok.injEq, Prod.mk.injEq] at h
        exact Or.inr ⟨buffer, rfl, hgt, h.1.symm, h.2.symm⟩

/-- A `render` call never fails: the non-null assertions it contains are
always valid (see the C9 theorem). -/
theorem render_ok (st : PipelineState) (scene : Scene) :
    ∃ out, render st scene = .ok out := by
  rcases hrel : relevantObjects st scene with _ | ⟨object_0, rest⟩
  · exact ⟨(st, []), render_skip st scene (Or.inl hrel)⟩
  · rcases htv : scene.texture_view with _ | tv
    · exact ⟨(st, []), render_skip st scene (Or.inr (Or.inl htv))⟩
    rcases hdtv : scene.depth_texture_view with _ | dtv
    · exact ⟨(st, []), render_skip st scene (Or.inr (Or.inr hdtv))⟩
    rw [render_eq_frame st scene object_0 rest tv dtv hrel htv hdtv]
    by_cases hgt : (object_0 :: rest).length * 16 * 4 > capacity st
    · exact ⟨_, render_frame_eq st scene object_0 (object_0 :: rest) tv dtv _ _ _
        (grow_or_write_grow st (object_0 :: rest) hgt)⟩
    · rcases hbuf : st.model_transforms with _ | buffer
      · exfalso
        apply hgt
        have hcap : capacity st = 0 := by simp [capacity, hbuf]
        rw [hcap]
        simp only [List.length_cons]
        omega
      · exact ⟨_, render_frame_eq st scene object_0 (object_0 :: rest) tv dtv _ _ _
          (grow_or_write_write st (object_0 :: rest) buffer hbuf hgt)⟩

/-! ### Capacity bookkeeping -/

theorem capacity_after_uniform_write (st : PipelineState) (u : List ℚ) :
    capacity (after_uniform_write st u) = capacity st := rfl

theorem capacity_grown_state (st : PipelineState) (relevant : List SceneObject) :
    capacity (grown_state st relevant) = 4 * (pack_model_transforms relevant).length := rfl

theorem capacity_written_state (st : PipelineState) (buffer : GPUBuffer)
    (relevant : List SceneObject) :
    capacity (written_state st buffer relevant) = buffer.size := rfl

theorem grown_size_eq (relevant : List SceneObject) :
    4 * (pack_model_transforms relevant).length = relevant.length * 16 * 4 := by
  rw [pack_model_transforms_length]
  ring

theorem render_capacity_mono (st : PipelineState) (scene : Scene)
    (st_out : PipelineState) (trace : List RenderEvent)
    (h : render st scene = .ok (st_out, trace)) :
    capacity st ≤ capacity st_out := by
  rcases render_result_cases st scene st_out trace h with
    ⟨hst, _, _⟩ | ⟨o0, rest, tv, dtv, _, _, _,
      ⟨hgt, hst, _⟩ | ⟨buffer, hbuf, _, hst, _⟩⟩
  · rw [hst]
  · rw [hst, capacity_after_uniform_write, capacity_grown_state, grown_size_eq]
    exact Nat.le_of_lt hgt
  · rw [hst, capacity_after_uniform_write, capacity_written_state]
    simp [capacity, hbuf]

theorem renderSeq_capacity_mono (scenes : List Scene) (st st_out : PipelineState)
    (h : renderSeq st scenes = .ok st_out) : capacity st ≤ capacity st_out := by
  induction scenes generalizing st with
  | nil =>
    simp only [renderSeq, Except.ok.injEq] at h
    rw [h]
  | cons scene rest ih =>
    simp only [renderSeq] at h
    rcases hr : render st scene with e | ⟨st₁, trace⟩
    · rw [hr] at h
      exact absurd h (by simp)
    · rw [hr] at h
      exact le_trans (render_capacity_mono st scene st₁ trace hr) (ih st₁ h)

/-! ### Trace bookkeeping -/

theorem grow_events_create_count (st : PipelineState) (relevant : List SceneObject) :
    (grow_events st relevant).countP (fun e => e.isBufferCreate) = 1 := by
  cases hb : st.model_transforms <;>
    simp [grow_events, hb, RenderEvent.isBufferCreate]

theorem grow_events_no_await (st : PipelineState) (relevant : List SceneObject) :
    (grow_events st relevant).countP (fun e => e.isAwaitTexture) = 0 := by
  cases hb : st.model_transforms <;>
    simp [grow_events, hb, RenderEvent.isAwaitTexture]

theorem pack_uniform_data_get3 (hd hs hn : ℚ) (scene : Scene) :
    (pack_uniform_data hd hs hn scene)[3]? = some (scene.lights.length : ℚ) := by
  simp [pack_uniform_data]

theorem pack_uniform_data_drop36 (hd hs hn : ℚ) (scene : Scene) :
    (pack_uniform_data hd hs hn scene).drop 36 =
      (scene.lights.map light_record).flatten := by
  rw [pack_uniform_data_eq]
  exact List.drop_left' (by simp [mat4_toFloats_length])

theorem uniform_of_take3 (object_0 : SceneObject) (scene : Scene) :
    (uniform_of object_0 scene).take 3 =
      [if object_0.has_texture_diffuse then 1 else 0,
       if object_0.has_texture_specular then 1 else 0,
       if object_0.has_texture_normal then 1 else 0] := by
  simp [uniform_of, pack_uniform_data]

/-- Combined characterization of a non-skipped frame: some successful
grow-or-write step happened, it left the uniform buffer untouched, the
frame trace is as recorded, the transform-step events contain no texture
await, and they upload the packed transform data (at buffer creation or
by the in-place write). -/
theorem render_eq_some_frame (st : PipelineState) (scene : Scene)
    (object_0 : SceneObject) (rest : List SceneObject) (tv dtv : ℕ)
    (hrel : relevantObjects st scene = object_0 :: rest)
    (htv : scene.texture_view = some tv)
    (hdtv : scene.depth_texture_view = some dtv) :
    ∃ st₁ transform_buffer transform_events,
      grow_or_write st (object_0 :: rest) =
        .ok (st₁, transform_buffer, transform_events)
      ∧ st₁.uniform_buffer = st.uniform_buffer
      ∧ render st scene =
          .ok (after_uniform_write st₁ (uniform_of object_0 scene),
               frame_trace scene object_0 (object_0 :: rest) tv dtv
                 st.uniform_buffer.id st.uniform_buffer.size
                 transform_buffer transform_events)
      ∧ transform_events.countP (fun e => e.isAwaitTexture) = 0
      ∧ (∃ e ∈ transform_events,
          e.uploadsData (pack_model_transforms (object_0 :: rest)) = true) := by
  by_cases hgt : (object_0 :: rest).length * 16 * 4 > capacity st
  · refine ⟨_, _, _, grow_or_write_grow st (object_0 :: rest) hgt, rfl, ?_, ?_, ?_⟩
    · exact (render_eq_frame st scene object_0 rest tv dtv hrel htv hdtv).trans
        (render_frame_eq st scene object_0 (object_0 :: rest) tv dtv _ _ _
          (grow_or_write_grow st (object_0 :: rest) hgt))
    · exact grow_events_no_await st (object_0 :: rest)
    · refine ⟨RenderEvent.bufferCreate st.next_buffer_id
        (4 * (pack_model_transforms (object_0 :: rest)).length)
        (pack_model_transforms (object_0 :: rest)), ?_, ?_⟩
      · simp [grow_events]
      · simp [RenderEvent.uploadsData]
  · rcases hbuf : st.model_transforms with _ | buffer
    · exfalso
      apply hgt
      have hcap : capacity st = 0 := by simp [capacity, hbuf]
      rw [hcap]
      simp only [List.length_cons]
      omega
    · refine ⟨_, _, _, grow_or_write_write st (object_0 :: rest) buffer hbuf hgt,
        rfl, ?_, ?_, ?_⟩
      · exact (render_eq_frame st scene object_0 rest tv dtv hrel htv hdtv).trans
          (render_frame_eq st scene object_0 (object_0 :: rest) tv dtv _ _ _
            (grow_or_write_write st (object_0 :: rest) buffer hbuf hgt))
      · simp [RenderEvent.isAwaitTexture]
      · refine ⟨RenderEvent.bufferWrite buffer.id 0
          (pack_model_transforms (object_0 :: rest)), ?_, ?_⟩
        · simp
        · simp [RenderEvent.uploadsData]

/-! ### Claims -/

/-- C6: for every scene in which no object's routing key matches this
pipeline's key, or the color target view is unavailable, or the depth
target view is unavailable, `render()` returns immediately with an empty
command trace (no render pass begun, no buffer written, no draw) and the
pipeline state — both owned buffers included — unchanged. -/
theorem C6_skip_is_noop (st : PipelineState) (scene : Scene)
    (h : relevantObjects st scene = [] ∨ scene.texture_view = none ∨
      scene.depth_texture_view = none) :
    render st scene = .ok (st, []) :=
  render_skip st scene h

/-- Witness for C6: a scene whose only object is routed to a different
pipeline key is skipped without commands or state change. -/
theorem C6_skip_is_noop_witness :
    relevantObjects pipeline0 scene_unmatched = [] ∧
    render pipeline0 scene_unmatched = .ok (pipeline0, []) :=
  ⟨by decide,
   C6_skip_is_noop pipeline0 scene_unmatched (Or.inl (by decide))⟩

/-- C9: the non-null assertions on the transform buffer are valid in
every `render()` invocation: `render` never reaches the failing
dereference (it always returns a result), and with a non-empty filtered
set an absent buffer yields capacity 0 while the needed size is at least
64 bytes, forcing the allocation branch rather than the write branch. -/
theorem C9_transform_assertions_valid :
    (∀ (st : PipelineState) (scene : Scene), ∃ out, render st scene = .ok out)
    ∧ (∀ (st : PipelineState) (scene : Scene) (object_0 : SceneObject)
         (rest : List SceneObject),
         relevantObjects st scene = object_0 :: rest →
         st.model_transforms = none →
         capacity st = 0 ∧ 64 ≤ (object_0 :: rest).length * 16 * 4 ∧
           (object_0 :: rest).length * 16 * 4 > capacity st) := by
  refine ⟨render_ok, ?_⟩
  intro st scene object_0 rest hrel hbuf
  have hcap : capacity st = 0 := by simp [capacity, hbuf]
  refine ⟨hcap, ?_, ?_⟩
  · simp only [List.length_cons]
    omega
  · rw [hcap]
    simp only [List.length_cons]
    omega

/-- Witness for C9: the first frame of a fresh pipeline has no transform
buffer, a non-empty selection, and takes the allocation branch. -/
theorem C9_transform_assertions_valid_witness :
    (∃ out, render pipeline0 scene_simple = .ok out) ∧
    (capacity pipeline0 = 0 ∧ 64 ≤ [obj_main].length * 16 * 4 ∧
      [obj_main].length * 16 * 4 > capacity pipeline0) :=
  ⟨C9_transform_assertions_valid.1 pipeline0 scene_simple,
   C9_transform_assertions_valid.2 pipeline0 scene_simple obj_main []
     (by decide) rfl⟩

/-- C10: the key derivation is a pure, deterministic transform of the
shader identifier: any two pipeline instances constructed from the same
shader identifier — regardless of scene or device-handle state — carry
identical pipeline keys, equal to `get_pipeline_key` applied to the
identifier (a pure string function with no device argument). -/
theorem C10_key_derivation_deterministic (shader_path : String)
    (scene₁ scene₂ : Scene) (id₁ id₂ : ℕ) :
    (construct_pipeline shader_path scene₁ id₁).key =
      (construct_pipeline shader_path scene₂ id₂).key ∧
    (construct_pipeline shader_path scene₁ id₁).key =
      get_pipeline_key shader_path :=
  ⟨rfl, rfl⟩

/-- C4: across every sequence of `render()` calls on one pipeline
instance, the transform buffer's capacity never decreases; within one
call, a buffer allocation happens exactly when the needed size
(selected-object count × 64 bytes) strictly exceeds the current
capacity, and then the replacement buffer is sized exactly to the needed
size (no rounding up), carries the packed transform data at creation,
and the old buffer — when one existed — is destroyed. -/
theorem C4_capacity_grow_only :
    (∀ (st : PipelineState) (scenes : List Scene) (st_out : PipelineState),
       renderSeq st scenes = .ok st_out → capacity st ≤ capacity st_out)
    ∧ (∀ (st : PipelineState) (scene : Scene) (st_out : PipelineState)
         (trace : List RenderEvent),
       render st scene = .ok (st_out, trace) →
       capacity st ≤ capacity st_out
       ∧ trace.countP (fun e => e.isBufferCreate) =
           (if relevantObjects st scene ≠ [] ∧ scene.texture_view ≠ none ∧
               scene.depth_texture_view ≠ none ∧
               (relevantObjects st scene).length * 16 * 4 > capacity st
            then 1 else 0)
       ∧ ((relevantObjects st scene).length * 16 * 4 > capacity st →
          relevantObjects st scene ≠ [] →
            st_out.model_transforms = some
              { id := st.next_buffer_id
                size := (relevantObjects st scene).length * 16 * 4
                data := pack_model_transforms (relevantObjects st scene) }
            ∨ trace = [])
       ∧ (∀ old, st.model_transforms = some old →
            trace.countP (fun e => e.isBufferCreate) ≠ 0 →
            RenderEvent.bufferDestroy old.id ∈ trace)) := by
  refine ⟨fun st scenes st_out h => renderSeq_capacity_mono scenes st st_out h, ?_⟩
  intro st scene st_out trace h
  rcases render_result_cases st scene st_out trace h with
    ⟨hst, htr, hskip⟩ | ⟨object_0, rest, tv, dtv, hrel, htv, hdtv, hbranch⟩
  · subst htr
    rw [hst]
    refine ⟨le_refl _, ?_, ?_, ?_⟩
    · have hc : ¬ (relevantObjects st scene ≠ [] ∧ scene.texture_view ≠ none ∧
          scene.depth_texture_view ≠ none ∧
          (relevantObjects st scene).length * 16 * 4 > capacity st) := by
        rintro ⟨hne, htvne, hdtvne, _⟩
        rcases hskip with h1 | h1 | h1
        · exact hne h1
        · exact htvne h1
        · exact hdtvne h1
      rw [if_neg hc, List.countP_nil]
    · intro _ _
      exact Or.inr rfl
    · intro old _ hcount
      simp at hcount
  · rcases hbranch with ⟨hgt, hst, htr⟩ | ⟨buffer, hbuf, hngt, hst, htr⟩
    · subst hst; subst htr
      rw [hrel]
      refine ⟨?_, ?_, ?_, ?_⟩
      · rw [capacity_after_uniform_write, capacity_grown_state, grown_size_eq]
        exact Nat.le_of_lt hgt
      · rw [if_pos ⟨by simp, by rw [htv]; simp, by rw [hdtv]; simp, hgt⟩]
        simp only [frame_trace, List.countP_append, grow_events_create_count]
        simp [List.countP_cons, RenderEvent.isBufferCreate]
      · intro _ _
        left
        rw [← grown_size_eq]
        rfl
      · intro old hold _
        simp [frame_trace, grow_events, hold]
    · subst hst; subst htr
      rw [hrel]
      refine ⟨?_, ?_, ?_, ?_⟩
      · rw [capacity_after_uniform_write, capacity_written_state]
        simp [capacity, hbuf]
      · rw [if_neg (fun hc => hngt hc.2.2.2)]
        simp [frame_trace, List.countP_append, List.countP_cons,
          RenderEvent.isBufferCreate]
      · intro hgt _
        exact absurd hgt hngt
      · intro old hold hcount
        exfalso
        apply hcount
        simp [frame_trace, List.countP_append, List.countP_cons,
          RenderEvent.isBufferCreate]

/-- Witness for C4: a two-frame sequence on a fresh pipeline only grows
the transform buffer's capacity. -/
theorem C4_capacity_grow_only_witness :
    renderSeq pipeline0 [scene_simple, scene_simple] = .ok pipeline2 ∧
    capacity pipeline0 ≤ capacity pipeline2 :=
  ⟨rfl,
   C4_capacity_grow_only.1 pipeline0 [scene_simple, scene_simple] pipeline2 rfl⟩

/-- C5: in a frame whose needed transform size is at most the current
capacity, the existing buffer handle is retained — no allocation and no
destruction occur — and the packed transform data is written into it at
offset 0, leaving the trailing contents beyond the written range
untouched. -/
theorem C5_write_in_place (st : PipelineState) (scene : Scene)
    (object_0 : SceneObject) (rest : List SceneObject) (tv dtv : ℕ)
    (buffer : GPUBuffer)
    (hrel : relevantObjects st scene = object_0 :: rest)
    (htv : scene.texture_view = some tv)
    (hdtv : scene.depth_texture_view = some dtv)
    (hbuf : st.model_transforms = some buffer)
    (hle : (object_0 :: rest).length * 16 * 4 ≤ buffer.size) :
    ∃ st_out trace,
      render st scene = .ok (st_out, trace)
      ∧ st_out.model_transforms = some
          { id := buffer.id
            size := buffer.size
            data := pack_model_transforms (object_0 :: rest)
              ++ buffer.data.drop (pack_model_transforms (object_0 :: rest)).length }
      ∧ trace.countP (fun e => e.isBufferCreate) = 0
      ∧ trace.countP (fun e => e.isBufferDestroy) = 0
      ∧ RenderEvent.bufferWrite buffer.id 0
          (pack_model_transforms (object_0 :: rest)) ∈ trace := by
  have hcap : capacity st = buffer.size := by simp [capacity, hbuf]
  have hngt : ¬ (object_0 :: rest).length * 16 * 4 > capacity st := by
    rw [hcap]
    omega
  have heq := (render_eq_frame st scene object_0 rest tv dtv hrel htv hdtv).trans
    (render_frame_eq st scene object_0 (object_0 :: rest) tv dtv _ _ _
      (grow_or_write_write st (object_0 :: rest) buffer hbuf hngt))
  refine ⟨_, _, heq, ?_, ?_, ?_, ?_⟩
  · simp [after_uniform_write, written_state, written_buffer, writeFloats_zero]
  · simp [frame_trace, List.countP_append, List.countP_cons,
      RenderEvent.isBufferCreate]
  · simp [frame_trace, List.countP_append, List.countP_cons,
      RenderEvent.isBufferDestroy]
  · simp [frame_trace]

/-- Witness for C5: rendering `scene_simple` a second time fits in the
64-byte buffer from the first frame and writes in place. -/
theorem C5_write_in_place_witness :
    pipeline1.model_transforms = some transform_buffer1 ∧
    (∃ st_out trace,
      render pipeline1 scene_simple = .ok (st_out, trace)
      ∧ st_out.model_transforms = some
          { id := transform_buffer1.id
            size := transform_buffer1.size
            data := pack_model_transforms [obj_main]
              ++ transform_buffer1.data.drop (pack_model_transforms [obj_main]).length }
      ∧ trace.countP (fun e => e.isBufferCreate) = 0
      ∧ trace.countP (fun e => e.isBufferDestroy) = 0
      ∧ RenderEvent.bufferWrite transform_buffer1.id 0
          (pack_model_transforms [obj_main]) ∈ trace) :=
  ⟨by decide,
   C5_write_in_place pipeline1 scene_simple obj_main [] 1 2 transform_buffer1
     (by decide) rfl rfl (by decide) (by decide)⟩

/-- C1 (counterexample): the claim that the uniform packing inside
`render()` produces exactly 116 floats for every scene input is false:
at a concrete zero-light scene the single write into the uniform buffer
carries a 36-float sequence, not 116. -/
theorem C1_counterexample :
    ((render pipeline0 scene_simple).toOption.map
       (fun out => uniform_write_lengths pipeline0.uniform_buffer.id out.2))
      = some [36]
    ∧ (36 : ℕ) ≠ 116 :=
  ⟨by decide, by decide⟩

/-- C1 (amended): the uniform packing produces a flat sequence of
`36 + 8·lightCount` floats — the four header scalars, the 16 view-matrix
floats, the 16 projection-matrix floats, then one 8-float record per
light actually in the scene's list, in the fixed field order — and the
total is 116 exactly when the scene holds exactly 10 lights; the packing
is a pure function of its inputs, so for fixed inputs the sequence is
identical. -/
theorem C1_uniform_packing_shape (hd hs hn : ℚ) (scene : Scene) :
    (pack_uniform_data hd hs hn scene).length = 36 + 8 * scene.lights.length
    ∧ ((pack_uniform_data hd hs hn scene).length = 116 ↔ scene.lights.length = 10)
    ∧ pack_uniform_data hd hs hn scene =
        [hd, hs, hn, (scene.lights.length : ℚ)]
        ++ scene.camera.view_matrix.toFloats
        ++ scene.camera.projection_matrix.toFloats
        ++ (scene.lights.map light_record).flatten
    ∧ ∀ light, (light_record light).length = 8 := by
  refine ⟨pack_uniform_data_length hd hs hn scene, ?_,
    pack_uniform_data_eq hd hs hn scene, fun light => light_record_length light⟩
  rw [pack_uniform_data_length]
  omega

/-- C2 (counterexample): at a concrete scene, a render-pass-begin
command is recorded strictly before the first texture-resolution await:
the trace prefix preceding the first `awaitTexture` contains one
`beginRenderPass`, contradicting the claim that no render-pass-begin,
pipeline-bind or buffer-write command precedes the awaits. -/
theorem C2_counterexample :
    ((render pipeline0 scene_simple).toOption.map
       (fun out => (events_before_texture_awaits out.2).countP
          (fun e => e.isBeginPass)))
      = some 1
    ∧ (1 : ℕ) ≠ 0 :=
  ⟨by decide, by decide⟩

/-- C2 (amended): in every non-skipped `render()` invocation the render
pass is begun and the pipeline bound *before* the texture-resolution
awaits, and these are the only commands recorded before them: every
buffer destroy/create/write, the bind group, the draw and the pass end
come after all three texture awaits complete. -/
theorem C2_commands_around_awaits (st : PipelineState) (scene : Scene)
    (object_0 : SceneObject) (rest : List SceneObject) (tv dtv : ℕ)
    (hrel : relevantObjects st scene = object_0 :: rest)
    (htv : scene.texture_view = some tv)
    (hdtv : scene.depth_texture_view = some dtv) :
    ∃ st_out rest_trace,
      render st scene = .ok (st_out,
        [RenderEvent.beginRenderPass tv dtv, RenderEvent.setPipeline,
         RenderEvent.awaitTexture object_0.texture_diffuse
           (scene.texture_manager object_0.texture_diffuse),
         RenderEvent.awaitTexture object_0.texture_specular
           (scene.texture_manager object_0.texture_specular),
         RenderEvent.awaitTexture object_0.texture_normal
           (scene.texture_manager object_0.texture_normal)] ++ rest_trace)
      ∧ rest_trace.countP (fun e => e.isAwaitTexture) = 0
      ∧ events_before_texture_awaits
          ([RenderEvent.beginRenderPass tv dtv, RenderEvent.setPipeline,
            RenderEvent.awaitTexture object_0.texture_diffuse
              (scene.texture_manager object_0.texture_diffuse),
            RenderEvent.awaitTexture object_0.texture_specular
              (scene.texture_manager object_0.texture_specular),
            RenderEvent.awaitTexture object_0.texture_normal
              (scene.texture_manager object_0.texture_normal)] ++ rest_trace)
          = [RenderEvent.beginRenderPass tv dtv, RenderEvent.setPipeline] := by
  obtain ⟨st₁, transform_buffer, transform_events, hg, hub, heq, hnoawait, hupload⟩ :=
    render_eq_some_frame st scene object_0 rest tv dtv hrel htv hdtv
  refine ⟨after_uniform_write st₁ (uniform_of object_0 scene),
    transform_events ++
      [RenderEvent.bufferWrite st.uniform_buffer.id 0 (uniform_of object_0 scene),
       RenderEvent.createBindGroup st.uniform_buffer.id st.uniform_buffer.size
         (scene.texture_manager object_0.texture_diffuse)
         (scene.texture_manager object_0.texture_specular)
         (scene.texture_manager object_0.texture_normal)
         transform_buffer.id transform_buffer.size,
       RenderEvent.setBindGroup,
       RenderEvent.awaitModelData object_0.pipeline_key,
       RenderEvent.setVertexBuffer object_0.model_data.vertex_data_gpu,
       RenderEvent.setIndexBuffer object_0.model_data.indices_gpu,
       RenderEvent.drawIndexed object_0.model_data.index_count
         (object_0 :: rest).length 0 0 0,
       RenderEvent.endPass], ?_, ?_, ?_⟩
  · rw [heq]
    simp [frame_trace, List.append_assoc]
  · rw [List.countP_append, hnoawait]
    simp [List.countP_cons, RenderEvent.isAwaitTexture]
  · simp [events_before_texture_awaits, RenderEvent.isAwaitTexture]

/-- C3: the light count written into the uniform buffer equals
`scene.lights.length` exactly, and every light in the scene's list is
packed into the uniform sequence, in order, as its position floats, a
literal 0, then its color floats — with no truncation, clamping,
assertion or warning for any list length (the theorem has no bound on
`scene.lights.length`, so lists beyond 10 pass through silently). -/
theorem C3_lights_passthrough (st : PipelineState) (scene : Scene)
    (object_0 : SceneObject) (rest : List SceneObject) (tv dtv : ℕ)
    (hrel : relevantObjects st scene = object_0 :: rest)
    (htv : scene.texture_view = some tv)
    (hdtv : scene.depth_texture_view = some dtv) :
    ∃ st_out trace,
      render st scene = .ok (st_out, trace)
      ∧ RenderEvent.bufferWrite st.uniform_buffer.id 0
          (uniform_of object_0 scene) ∈ trace
      ∧ (uniform_of object_0 scene)[3]? = some (scene.lights.length : ℚ)
      ∧ (uniform_of object_0 scene).drop 36 =
          (scene.lights.map light_record).flatten
      ∧ (uniform_of object_0 scene).length = 36 + 8 * scene.lights.length
      ∧ ∀ light, light_record light =
          light.position.toFloats ++ [0] ++ light.color.toFloats := by
  obtain ⟨st₁, transform_buffer, transform_events, hg, hub, heq, hnoawait, hupload⟩ :=
    render_eq_some_frame st scene object_0 rest tv dtv hrel htv hdtv
  refine ⟨_, _, heq, ?_, ?_, ?_, ?_, fun light => rfl⟩
  · simp [frame_trace]
  · simp only [uniform_of]
    exact pack_uniform_data_get3 _ _ _ scene
  · simp only [uniform_of]
    exact pack_uniform_data_drop36 _ _ _ scene
  · simp only [uniform_of]
    exact pack_uniform_data_length _ _ _ scene

/-- C7: `render()` draws exactly the objects whose pipeline key equals
this pipeline's key: the instanced draw's instance count is the filtered
subset's size, the uploaded transform sequence holds exactly one
16-float matrix per selected object, and the i-th 16-float block is the
i-th selected object's model matrix (filter order), so instance i
consumes transform i. -/
theorem C7_routing_instanced_draw (st : PipelineState) (scene : Scene)
    (object_0 : SceneObject) (rest : List SceneObject) (tv dtv : ℕ)
    (hrel : relevantObjects st scene = object_0 :: rest)
    (htv : scene.texture_view = some tv)
    (hdtv : scene.depth_texture_view = some dtv) :
    ∃ st_out trace,
      render st scene = .ok (st_out, trace)
      ∧ RenderEvent.drawIndexed object_0.model_data.index_count
          (relevantObjects st scene).length 0 0 0 ∈ trace
      ∧ (∃ e ∈ trace,
          e.uploadsData (pack_model_transforms (relevantObjects st scene)) = true)
      ∧ (pack_model_transforms (relevantObjects st scene)).length =
          16 * (relevantObjects st scene).length
      ∧ ∀ i (h : i < (relevantObjects st scene).length),
          ((pack_model_transforms (relevantObjects st scene)).drop (16 * i)).take 16
            = ((relevantObjects st scene).get ⟨i, h⟩).model_matrix.toFloats := by
  obtain ⟨st₁, transform_buffer, transform_events, hg, hub, heq, hnoawait, hupload⟩ :=
    render_eq_some_frame st scene object_0 rest tv dtv hrel htv hdtv
  rw [hrel]
  refine ⟨_, _, heq, ?_, ?_,
    pack_model_transforms_length (object_0 :: rest),
    pack_model_transforms_block (object_0 :: rest)⟩
  · simp [frame_trace]
  · obtain ⟨e, he, hed⟩ := hupload
    refine ⟨e, ?_, hed⟩
    simp only [frame_trace]
    exact List.mem_append_left _ (List.mem_append_right _ he)

/-- C8: in every non-skipped frame the texture-presence flags and the
resolved diffuse/specular/normal textures come solely from the first
object of the filtered set, and the draw's vertex and index buffers come
from that same first object's mesh, regardless of how many objects were
selected. -/
theorem C8_first_object_resources (st : PipelineState) (scene : Scene)
    (object_0 : SceneObject) (rest : List SceneObject) (tv dtv : ℕ)
    (hrel : relevantObjects st scene = object_0 :: rest)
    (htv : scene.texture_view = some tv)
    (hdtv : scene.depth_texture_view = some dtv) :
    ∃ st_out trace,
      render st scene = .ok (st_out, trace)
      ∧ RenderEvent.awaitTexture object_0.texture_diffuse
          (scene.texture_manager object_0.texture_diffuse) ∈ trace
      ∧ RenderEvent.awaitTexture object_0.texture_specular
          (scene.texture_manager object_0.texture_specular) ∈ trace
      ∧ RenderEvent.awaitTexture object_0.texture_normal
          (scene.texture_manager object_0.texture_normal) ∈ trace
      ∧ (∃ transform_id transform_size,
           RenderEvent.createBindGroup st.uniform_buffer.id st.uniform_buffer.size
             (scene.texture_manager object_0.texture_diffuse)
             (scene.texture_manager object_0.texture_specular)
             (scene.texture_manager object_0.texture_normal)
             transform_id transform_size ∈ trace)
      ∧ RenderEvent.setVertexBuffer object_0.model_data.vertex_data_gpu ∈ trace
      ∧ RenderEvent.setIndexBuffer object_0.model_data.indices_gpu ∈ trace
      ∧ RenderEvent.bufferWrite st.uniform_buffer.id 0
          (uniform_of object_0 scene) ∈ trace
      ∧ (uniform_of object_0 scene).take 3 =
          [if object_0.has_texture_diffuse then 1 else 0,
           if object_0.has_texture_specular then 1 else 0,
           if object_0.has_texture_normal then 1 else 0] := by
  obtain ⟨st₁, transform_buffer, transform_events, hg, hub, heq, hnoawait, hupload⟩ :=
    render_eq_some_frame st scene object_0 rest tv dtv hrel htv hdtv
  refine ⟨_, _, heq, ?_, ?_, ?_,
    ⟨transform_buffer.id, transform_buffer.size, ?_⟩, ?_, ?_, ?_,
    uniform_of_take3 object_0 scene⟩ <;>
    simp [frame_trace]

/-- Witness for C2 (amended) at a concrete one-object scene. -/
theorem C2_commands_around_awaits_witness :
    relevantObjects pipeline0 scene_simple = [obj_main] ∧
    (∃ st_out rest_trace,
      render pipeline0 scene_simple = .ok (st_out,
        [RenderEvent.beginRenderPass 1 2, RenderEvent.setPipeline,
         RenderEvent.awaitTexture obj_main.texture_diffuse
           (scene_simple.texture_manager obj_main.texture_diffuse),
         RenderEvent.awaitTexture obj_main.texture_specular
           (scene_simple.texture_manager obj_main.texture_specular),
         RenderEvent.awaitTexture obj_main.texture_normal
           (scene_simple.texture_manager obj_main.texture_normal)] ++ rest_trace)
      ∧ rest_trace.countP (fun e => e.isAwaitTexture) = 0
      ∧ events_before_texture_awaits
          ([RenderEvent.beginRenderPass 1 2, RenderEvent.setPipeline,
            RenderEvent.awaitTexture obj_main.texture_diffuse
              (scene_simple.texture_manager obj_main.texture_diffuse),
            RenderEvent.awaitTexture obj_main.texture_specular
              (scene_simple.texture_manager obj_main.texture_specular),
            RenderEvent.awaitTexture obj_main.texture_normal
              (scene_simple.texture_manager obj_main.texture_normal)] ++ rest_trace)
          = [RenderEvent.beginRenderPass 1 2, RenderEvent.setPipeline]) :=
  ⟨by decide,
   C2_commands_around_awaits pipeline0 scene_simple obj_main [] 1 2
     (by decide) rfl rfl⟩

/-- Witness for C3 at a concrete scene carrying eleven lights — one more
than the ten fixed uniform slots — which still passes through whole. -/
theorem C3_lights_passthrough_witness :
    relevantObjects pipeline0 scene_many_lights = [obj_main] ∧
    scene_many_lights.lights.length = 11 ∧
    (∃ st_out trace,
      render pipeline0 scene_many_lights = .ok (st_out, trace)
      ∧ RenderEvent.bufferWrite pipeline0.uniform_buffer.id 0
          (uniform_of obj_main scene_many_lights) ∈ trace
      ∧ (uniform_of obj_main scene_many_lights)[3]? =
          some (scene_many_lights.lights.length : ℚ)
      ∧ (uniform_of obj_main scene_many_lights).drop 36 =
          (scene_many_lights.lights.map light_record).flatten
      ∧ (uniform_of obj_main scene_many_lights).length =
          36 + 8 * scene_many_lights.lights.length
      ∧ ∀ light, light_record light =
          light.position.toFloats ++ [0] ++ light.color.toFloats) :=
  ⟨by decide, by decide,
   C3_lights_passthrough pipeline0 scene_many_lights obj_main [] 1 2
     (by decide) rfl rfl⟩

/-- Witness for C7 at a scene split across two routing keys: only the
two objects with this pipeline's key are drawn. -/
theorem C7_routing_instanced_draw_witness :
    relevantObjects pipeline0 scene_mixed = [obj_main, obj_second] ∧
    (∃ st_out trace,
      render pipeline0 scene_mixed = .ok (st_out, trace)
      ∧ RenderEvent.drawIndexed obj_main.model_data.index_count
          (relevantObjects pipeline0 scene_mixed).length 0 0 0 ∈ trace
      ∧ (∃ e ∈ trace,
          e.uploadsData (pack_model_transforms (relevantObjects pipeline0 scene_mixed))
            = true)
      ∧ (pack_model_transforms (relevantObjects pipeline0 scene_mixed)).length =
          16 * (relevantObjects pipeline0 scene_mixed).length
      ∧ ∀ i (h : i < (relevantObjects pipeline0 scene_mixed).length),
          ((pack_model_transforms (relevantObjects pipeline0 scene_mixed)).drop
            (16 * i)).take 16
            = ((relevantObjects pipeline0 scene_mixed).get
                ⟨i, h⟩).model_matrix.toFloats) :=
  ⟨by decide,
   C7_routing_instanced_draw pipeline0 scene_mixed obj_main [obj_second] 1 2
     (by decide) rfl rfl⟩

/-- Witness for C8 at the two-key scene: even with a second selected
object carrying different textures and mesh, the frame uses the first
object's textures, flags and mesh. -/
theorem C8_first_object_resources_witness :
    relevantObjects pipeline0 scene_mixed = [obj_main, obj_second] ∧
    (∃ st_out trace,
      render pipeline0 scene_mixed = .ok (st_out, trace)
      ∧ RenderEvent.awaitTexture obj_main.texture_diffuse
          (scene_mixed.texture_manager obj_main.texture_diffuse) ∈ trace
      ∧ RenderEvent.awaitTexture obj_main.texture_specular
          (scene_mixed.texture_manager obj_main.texture_specular) ∈ trace
      ∧ RenderEvent.awaitTexture obj_main.texture_normal
          (scene_mixed.texture_manager obj_main.texture_normal) ∈ trace
      ∧ (∃ transform_id transform_size,
           RenderEvent.createBindGroup pipeline0.uniform_buffer.id
             pipeline0.uniform_buffer.size
             (scene_mixed.texture_manager obj_main.texture_diffuse)
             (scene_mixed.texture_manager obj_main.texture_specular)
             (scene_mixed.texture_manager obj_main.texture_normal)
             transform_id transform_size ∈ trace)
      ∧ RenderEvent.setVertexBuffer obj_main.model_data.vertex_data_gpu ∈ trace
      ∧ RenderEvent.setIndexBuffer obj_main.model_data.indices_gpu ∈ trace
      ∧ RenderEvent.bufferWrite pipeline0.uniform_buffer.id 0
          (uniform_of obj_main scene_mixed) ∈ trace
      ∧ (uniform_of obj_main scene_mixed).take 3 =
          [if obj_main.has_texture_diffuse then 1 else 0,
           if obj_main.has_texture_specular then 1 else 0,
           if obj_main.has_texture_normal then 1 else 0]) :=
  ⟨by decide,
   C8_first_object_resources pipeline0 scene_mixed obj_main [obj_second] 1 2
     (by decide) rfl rfl⟩

end Default3DPipeLine

end WebgpuEngine
